import Mathlib

/-!
Verification of the Roomify asset-hosting / project-persistence pipeline.

This file shallowly embeds the relevant program logic:
* the asset uploader `uploadImageToHosting` and its helpers,
* the hosting configuration manager `getOrCreateHostingConfig`,
* the 3D generation client `generate3DView` with its ordered model fallback,
* the project store client (`createProject`, `getProjects`, `getProject`,
  `updateProject`, `uploadImageFromBase64`, ...),
* the worker save endpoint `POST /api/projects/save`,
* the visualizer zoom handlers.

External I/O (network fetches, the generation backend, the key-value store,
the file system) is modelled by explicit environments / oracles, and every
side effect relevant to a claim (directory creation, file writes, key-value
writes, backend invocations) is reified into an explicit effect trace so that
"performs no write"-style properties are provable.

Helpers that live in the repository's `lib/utils.ts` / `lib/constants.ts`
(files not present in the source snapshot: only their callers are) are
modelled from the specification; each such definition carries a
`Modelled from the spec:` doc comment.
-/

namespace Roomify

/-- JavaScript string disjunction `a || b`: the empty string is falsy. -/
def jsOr (a b : String) : String := if a = "" then b else a

/-- `charsPrefixOf pat l` holds when `pat` is a prefix of `l`.
(Structural recursion so that concrete instances evaluate in the kernel.) -/
def charsPrefixOf : List Char → List Char → Bool
  | [], _ => true
  | _ :: _, [] => false
  | a :: as, b :: bs => a = b && charsPrefixOf as bs

/-- `charsInfixOf pat l` holds when `pat` occurs contiguously inside `l`. -/
def charsInfixOf (pat : List Char) : List Char → Bool
  | [] => pat.isEmpty
  | b :: bs => charsPrefixOf pat (b :: bs) || charsInfixOf pat bs

/-- `s.startsWith pat` over the underlying character list. -/
def strStarts (s pat : String) : Bool := charsPrefixOf pat.data s.data

/-- `s.endsWith pat` over the underlying character list. -/
def strEnds (s pat : String) : Bool :=
  charsPrefixOf pat.data.reverse s.data.reverse

/-- `s.includes pat` over the underlying character list. -/
def strHas (s pat : String) : Bool := charsInfixOf pat.data s.data

/-- Drop the first `n` characters of a string. -/
def strDrop (s : String) (n : Nat) : String := ⟨s.data.drop n⟩

/-- Split a character list at the first occurrence of `c`: returns the
characters before it and the characters after it (the JS
`indexOf`/`substring(i+1)` pair), or `none` when `c` does not occur. -/
def splitFirstAt (c : Char) : List Char → Option (List Char × List Char)
  | [] => none
  | a :: as =>
    if a = c then some ([], as)
    else (splitFirstAt c as).map fun p => (a :: p.1, p.2)

/-- Hosting configuration record: the per-account hosting namespace slug. -/
structure HostingConfig where
  subdomain : String
deriving DecidableEq, Repr

/-- A hosted asset: the public URL returned by the uploader. -/
structure HostedAsset where
  url : String
deriving DecidableEq, Repr

/-- Modelled from the spec: `isHostedUrl` (from the missing `lib/utils.ts`)
holds when the URL already points at the hosting domain, i.e. contains the
hosting domain marker `.puter.site`. -/
def isHostedUrl (url : String) : Bool := strHas url ".puter.site"

/-- The fixed root directory backing the hosting namespace. -/
def hostingRootDirName : String := "roomify-hosting"

/-- Modelled from the spec: `getHostedUrl` (from the missing `lib/utils.ts`)
combines the namespace with the path relative to the hosting root; the root
prefix itself is stripped since the namespace already points at that root. -/
def getHostedUrl (cfg : HostingConfig) (filePath : String) : String :=
  let rel :=
    if strStarts filePath (hostingRootDirName ++ "/") then
      strDrop filePath (hostingRootDirName ++ "/").length
    else filePath
  "https://" ++ cfg.subdomain ++ ".puter.site/" ++ rel

/-- Modelled from the spec: `getImageExtension` (from the missing
`lib/utils.ts`) determines the file extension from the resolved
content-type, falling back to the URL suffix, defaulting to `png`. -/
def getImageExtension (contentType url : String) : String :=
  if contentType = "image/jpeg" then "jpg"
  else if contentType = "image/png" then "png"
  else if contentType = "image/webp" then "webp"
  else if strEnds url ".jpg" || strEnds url ".jpeg" then "jpg"
  else if strEnds url ".png" then "png"
  else if strEnds url ".webp" then "webp"
  else "png"

/-- Abstract binary blob: the payload is kept as the base64 text it was
decoded from (byte identity is irrelevant to the claims), together with the
blob's `type` attribute. -/
structure BlobV where
  bytes : String
  btype : String
deriving DecidableEq, Repr

/-- A resolved image: blob plus the content type the resolver reported. -/
structure ResolvedBlob where
  blob : BlobV
  contentType : String
deriving DecidableEq, Repr

/-- Modelled from the spec: data-URL decoding inside the Blob/DataURL
converter (missing `lib/utils.ts`). For an inline data URL, the content
type is the value declared in the prefix (up to the first `;`, defaulting
to PNG when none is declared) and the payload is everything after the
first comma; a data URL missing the comma separator is malformed. -/
def parseDataUrl (url : String) : Option (String × String) :=
  if strStarts url "data:" then
    match splitFirstAt ',' url.data with
    | none => none
    | some (hd, rest) =>
      let mime : String := ⟨(hd.drop 5).takeWhile (fun c => c ≠ ';')⟩
      some ((if mime = "" then "image/png" else mime), (⟨rest⟩ : String))
  else none

/-- Environment for the uploader: outcomes of the external effects.
`fetchRemote` is the network fetch of a non-data URL (`fetchBlobFromUrl`'s
remote branch); `toPngBlob` is the canvas-based PNG re-encode
(`imageUrlToPngBlob`). `none` models any failure. -/
structure HostEnv where
  fetchRemote : String → Option ResolvedBlob
  toPngBlob : String → Option BlobV

/-- Modelled from the spec: `fetchBlobFromUrl` (missing `lib/utils.ts`)
resolves an image reference to binary content plus a content type: a data
URL is decoded directly, anything else is fetched (the fetch outcome is
the environment's). -/
def fetchBlobFromUrl (env : HostEnv) (url : String) : Option ResolvedBlob :=
  match parseDataUrl url with
  | some (mime, payload) =>
    some { blob := { bytes := payload, btype := mime }, contentType := mime }
  | none => if strStarts url "data:" then none else env.fetchRemote url

/-- Upload label: organizes files as `{label}.{ext}` under the project dir. -/
inductive Label
  | source
  | rendered
deriving DecidableEq, Repr

/-- The file-name stem for a label. -/
def Label.str : Label → String
  | .source => "source"
  | .rendered => "rendered"

/-- Reified file-system effects of the uploader. -/
inductive FsEff
  | mkdirE (dir : String)
  | writeE (path : String)
deriving DecidableEq, Repr

/-- Embedding of `uploadImageToHosting` (src/unnamed/part_006, lines
747-872). Returns the hosted asset (or `none` on any failure) together
with the trace of file-system effects performed. -/
def uploadImageToHosting (env : HostEnv) (hosting : Option HostingConfig)
    (url projectId : String) (label : Label) :
    Option HostedAsset × List FsEff :=
  match hosting with
  | none => (none, [])
  | some cfg =>
    if url = "" then (none, [])
    else if isHostedUrl url then (some { url := url }, [])
    else
      let resolved : Option ResolvedBlob :=
        match label with
        | .rendered =>
          (env.toPngBlob url).map fun b =>
            { blob := b, contentType := "image/png" }
        | .source => fetchBlobFromUrl env url
      match resolved with
      | none => (none, [])
      | some r =>
        let contentType := jsOr (jsOr r.contentType r.blob.btype) ""
        let ext := getImageExtension contentType url
        let dir := hostingRootDirName ++ "/projects/" ++ projectId
        let filePath := dir ++ "/" ++ label.str ++ "." ++ ext
        let hostedUrl := getHostedUrl cfg filePath
        if hostedUrl = "" then
          (none, [FsEff.mkdirE dir, FsEff.writeE filePath])
        else
          (some { url := hostedUrl }, [FsEff.mkdirE dir, FsEff.writeE filePath])

/-! ### 3D generation client (src/unnamed/part_006, lines 31-275) -/

/-- Abstract handle for a generated image (an `HTMLImageElement`). -/
structure ImageH where
  ident : Nat
deriving DecidableEq, Repr

/-- The request object handed to the generation backend
(`puter.ai.txt2img`). `inputImage` pairs the raw base64 payload with its
MIME type; `ratioOpt` models the optional `ratio` field. -/
structure AiOptions where
  provider : String
  model : String
  prompt : String
  testMode : Bool
  inputImage : Option (String × String)
  ratioOpt : Option (Nat × Nat)
deriving DecidableEq, Repr

/-- One entry of the ordered model-fallback list; `ratioOpt` models the
optional `ratio` field of the configuration. -/
structure ModelConfig where
  provider : String
  model : String
  useInputImage : Bool
  ratioOpt : Option (Nat × Nat)
deriving DecidableEq, Repr

/-- Modelled from the spec: `IMAGE_3D_RENDER_DIMENSION` (missing
`lib/constants.ts`); the docs show the requested ratio as 1024×1024. -/
def IMAGE_3D_RENDER_DIMENSION : Nat := 1024

/-- Modelled from the spec: `ROOMIFY_RENDER_PROMPT` (missing
`lib/constants.ts`), the fixed default prompt describing a top-down,
photorealistic, text-free 3D render matching the input geometry. Its
exact wording is irrelevant to the claims. -/
def ROOMIFY_RENDER_PROMPT : String :=
  "Top-down photorealistic 3D render matching the input floor plan geometry, without any text"

/-- The fixed, ordered fallback list `THREE_D_MODEL_CONFIGS`. -/
def THREE_D_MODEL_CONFIGS : List ModelConfig :=
  [ { provider := "gemini", model := "gemini-2.5-flash-image-preview",
      useInputImage := true,
      ratioOpt := some (IMAGE_3D_RENDER_DIMENSION, IMAGE_3D_RENDER_DIMENSION) },
    { provider := "gemini", model := "gemini-3-pro-image-preview",
      useInputImage := true,
      ratioOpt := some (IMAGE_3D_RENDER_DIMENSION, IMAGE_3D_RENDER_DIMENSION) },
    { provider := "xai", model := "grok-2-image",
      useInputImage := false, ratioOpt := none } ]

/-- Environment of the generation client: the outcome of fetching a
non-data URL into a data URL (`fetch` + `FileReader`), and the generation
backend itself. -/
structure GenEnv where
  fetchDataUrl : String → Except String String
  txt2img : AiOptions → Except String ImageH

/-- Embedding of `fetchAsDataUrl`: a data URL is returned unchanged,
anything else is fetched and read back as a data URL (outcome from the
environment; errors model rejected promises). -/
def fetchAsDataUrl (env : GenEnv) (url : String) : Except String String :=
  if strStarts url "data:" then .ok url else env.fetchDataUrl url

/-- Embedding of `extractBase64FromDataUrl`: everything after the first
comma; a data URL with no comma is malformed. -/
def extractBase64FromDataUrl (dataUrl : String) : Except String String :=
  match splitFirstAt ',' dataUrl.data with
  | none => .error "Invalid data URL format"
  | some (_, rest) => .ok ⟨rest⟩

/-- The JavaScript unanchored regex search for `data:` followed by a
non-empty run of non-semicolon characters (the capture of
`match(/data:([^;]+)/)`): scan left to right; at each position where
`data:` matches and at least one non-`;` character follows, capture the
maximal such run; on a failed attempt resume the search one character
further, so a later `data:` occurrence can still match. `none` models a
null match. -/
def regexDataCapture : List Char → Option (List Char)
  | [] => none
  | c :: rest =>
    if charsPrefixOf "data:".data (c :: rest) then
      let cap := ((c :: rest).drop 5).takeWhile (fun ch => ch ≠ ';')
      if cap.isEmpty then regexDataCapture rest else some cap
    else regexDataCapture rest

/-- The capture of the JavaScript regex `match(/data:([^;]+);/)`: like
`regexDataCapture`, but the (maximal, hence unbacktrackable) captured run
must be followed by a literal `;` for the attempt to succeed; otherwise
the search resumes one character further. -/
def regexDataCaptureSemi : List Char → Option (List Char)
  | [] => none
  | c :: rest =>
    if charsPrefixOf "data:".data (c :: rest) then
      let cap := ((c :: rest).drop 5).takeWhile (fun ch => ch ≠ ';')
      if cap.isEmpty then regexDataCaptureSemi rest
      else if charsPrefixOf [';'] (((c :: rest).drop 5).drop cap.length) then some cap
      else regexDataCaptureSemi rest
    else regexDataCaptureSemi rest

/-- Embedding of `getMimeTypeFromUrl` (src/unnamed/part_006, lines
122-142): for a data URL, the capture of the unanchored regex
`match(/data:([^;]+)/)` - which may come from a later `data:` occurrence
when the leading prefix declares no type - defaulting to PNG on a null
match; otherwise inference from the URL's file extension; PNG as the
final default. -/
def getMimeTypeFromUrl (url : String) : String :=
  if strStarts url "data:" then
    match regexDataCapture url.data with
    | some cap => ⟨cap⟩
    | none => "image/png"
  else if strEnds url ".jpg" || strEnds url ".jpeg" then "image/jpeg"
  else if strEnds url ".png" then "image/png"
  else if strEnds url ".webp" then "image/webp"
  else "image/png"

/-- The caller-supplied options of `generate3DView`. -/
structure GenOptions where
  prompt : Option String := none
  model : Option String := none
  testMode : Option Bool := none
deriving Repr

/-- `options?.prompt || ROOMIFY_RENDER_PROMPT` (empty string is falsy). -/
def normPrompt (o : GenOptions) : String :=
  jsOr (o.prompt.getD "") ROOMIFY_RENDER_PROMPT

/-- `options?.testMode ?? false`. -/
def normTestMode (o : GenOptions) : Bool := o.testMode.getD false

/-- Builds the backend request for configuration `cfg` at index `i`: the
caller-supplied model override applies only to the first configuration
(and only when truthy); the base64 payload and MIME type are attached only
when the configuration accepts an input image. -/
def genAiOption (base64Data mimeType prompt : String) (testMode : Bool)
    (override : Option String) (i : Nat) (cfg : ModelConfig) : AiOptions :=
  let model :=
    match override with
    | some o => if i = 0 && o ≠ "" then o else cfg.model
    | none => cfg.model
  { provider := cfg.provider
    model := model
    prompt := prompt
    testMode := testMode
    inputImage := if cfg.useInputImage then some (base64Data, mimeType) else none
    ratioOpt := cfg.ratioOpt }

/-- The fallback loop of `generate3DView`: try each configuration in
order, return the first success immediately, remember the last error, and
after exhausting the list raise the aggregated error naming the total
number of models and the last error's message. Also returns the trace of
backend requests actually issued. -/
def tryModelsFrom (txt2img : AiOptions → Except String ImageH)
    (mkOpts : Nat → ModelConfig → AiOptions) (total : Nat) :
    List ModelConfig → Nat → Option String → Except String ImageH × List AiOptions
  | [], _, lastError =>
    (.error ("Failed to generate 3D view (tried " ++ toString total
        ++ " model(s)): " ++ lastError.getD "null"), [])
  | cfg :: rest, i, _ =>
    let o := mkOpts i cfg
    match txt2img o with
    | .ok img => (.ok img, [o])
    | .error e =>
      let r := tryModelsFrom txt2img mkOpts total rest (i + 1) (some e)
      (r.fst, o :: r.snd)

/-- Embedding of `generate3DView` (src/unnamed/part_006, lines 209-275).
Returns the generation result together with the trace of backend
invocations. -/
def generate3DView (env : GenEnv) (imageUrl : String) (options : GenOptions) :
    Except String ImageH × List AiOptions :=
  match fetchAsDataUrl env imageUrl with
  | .error e => (.error e, [])
  | .ok dataUrl =>
    match extractBase64FromDataUrl dataUrl with
    | .error e => (.error e, [])
    | .ok base64Data =>
      let mimeType := getMimeTypeFromUrl imageUrl
      let prompt := normPrompt options
      let testMode := normTestMode options
      tryModelsFrom env.txt2img
        (genAiOption base64Data mimeType prompt testMode options.model)
        THREE_D_MODEL_CONFIGS.length THREE_D_MODEL_CONFIGS 0 none

/-! ### Hosting configuration manager (src/unnamed/part_006, lines 606-695) -/

/-- The externally visible Puter state the hosting manager touches: the
value cached under `roomify_hosting_config` in the key-value store, and
the set of hosting subdomains that currently resolve. -/
structure HostState where
  kv : Option HostingConfig
  subdomains : List String
deriving DecidableEq, Repr

/-- Reified hosting-manager effects. -/
inductive HostingEff
  | mkdirRoot
  | updateE (slug : String)
  | createE (slug : String)
deriving DecidableEq, Repr

/-- The creation path of `getOrCreateHostingConfig`: mkdir the root dir,
register a fresh subdomain, persist the config. A collision with an
existing subdomain makes `puter.hosting.create` throw, which the outer
catch turns into `null` with no key-value write. -/
def createHostingFresh (slug : String) (st : HostState) :
    Option HostingConfig × HostState × List HostingEff :=
  if slug ∈ st.subdomains then
    (none, st, [HostingEff.mkdirRoot])
  else
    (some { subdomain := slug },
     { kv := some { subdomain := slug }, subdomains := slug :: st.subdomains },
     [HostingEff.mkdirRoot, HostingEff.createE slug])

/-- Embedding of `getOrCreateHostingConfig`: requires a signed-in session
(else `null`); reuses the cached config when its subdomain still resolves
(re-running the idempotent mkdir/update); otherwise mints the slug
`freshSlug` (the timestamp-plus-random `createHostingSlug()` output),
creates the namespace and persists the config. -/
def getOrCreateHostingConfig (signedIn : Bool) (freshSlug : String)
    (st : HostState) : Option HostingConfig × HostState × List HostingEff :=
  if !signedIn then (none, st, [])
  else
    match st.kv with
    | some config =>
      if config.subdomain ∈ st.subdomains then
        (some config, st, [HostingEff.mkdirRoot, HostingEff.updateE config.subdomain])
      else
        createHostingFresh freshSlug st
    | none => createHostingFresh freshSlug st

/-! ### Project store client (src/unnamed/part_004) -/

/-- The project record (`DesignItem`). Optional string fields model
JavaScript's `undefined`. -/
structure DesignItem where
  id : String
  name : Option String := none
  sourceImage : String
  renderedImage : Option String := none
  image3D : Option String := none
  timestamp : Nat := 0
  ownerId : Option String := none
  sourcePath : Option String := none
  renderedPath : Option String := none
  publicPath : Option String := none
deriving DecidableEq, Repr

/-- `PUTER_WORKER_URL?.replace(/\x2f$/, '')` followed by the `!baseUrl`
guard: strips one trailing slash and treats an absent or empty result as
"no worker configured". -/
def normWorkerBase (workerUrl : Option String) : Option String :=
  match workerUrl with
  | none => none
  | some u =>
    let b : String := if strEnds u "/" then ⟨u.data.dropLast⟩ else u
    if b = "" then none else some b

/-- A worker response carrying a project payload. -/
structure WorkerResp where
  ok : Bool
  project : Option DesignItem
deriving Repr

/-- A worker response for the list endpoint. `projects = none` models a
body whose `projects` field is not an array. -/
structure WorkerListResp where
  ok : Bool
  projects : Option (List DesignItem)
deriving Repr

/-- Embedding of `getProjects` (src/unnamed/part_004, lines 57-83):
not signed in, missing worker URL, transport failure, non-ok response and
non-array body all collapse to the empty list. -/
def getProjects (signedIn : Bool) (workerUrl : Option String)
    (exec : Except String WorkerListResp) : List DesignItem :=
  if !signedIn then []
  else
    match normWorkerBase workerUrl with
    | none => []
    | some _ =>
      match exec with
      | .error _ => []
      | .ok resp => if !resp.ok then [] else resp.projects.getD []

/-- Embedding of `getProject` (src/unnamed/part_004, lines 92-122): not
signed in or empty id, missing worker URL, transport failure and non-ok
responses (404 included) all yield `none`; an ok response yields
`data?.project ?? null`. -/
def getProject (signedIn : Bool) (id : String) (workerUrl : Option String)
    (exec : Except String WorkerResp) : Option DesignItem :=
  if !signedIn || id = "" then none
  else
    match normWorkerBase workerUrl with
    | none => none
    | some _ =>
      match exec with
      | .error _ => none
      | .ok resp => if !resp.ok then none else resp.project

/-- Embedding of `updateProject` (src/unnamed/part_004, lines 131-163):
requires a signed-in session and a truthy project id; an ok response
yields `data?.project ?? project`; any failure yields `none`. -/
def updateProject (signedIn : Bool) (project : DesignItem)
    (workerUrl : Option String) (exec : Except String WorkerResp) :
    Option DesignItem :=
  if !signedIn || project.id = "" then none
  else
    match normWorkerBase workerUrl with
    | none => none
    | some _ =>
      match exec with
      | .error _ => none
      | .ok resp =>
        if !resp.ok then none else some (resp.project.getD project)

/-- Environment of `createProject`: outcome of `getOrCreateHostingConfig`,
the uploader environment, the worker base URL and the outcome of the
worker save call (a transport error models a rejected `exec`). -/
structure ProjEnv where
  hostEnv : HostEnv
  hostingResult : Option HostingConfig
  workerUrl : Option String
  saveExec : DesignItem → Except String WorkerResp

/-- Embedding of `createProject` (src/unnamed/part_004, lines 209-327).
The second component records whether the worker save endpoint was invoked
at all. -/
def createProject (env : ProjEnv) (item : DesignItem) :
    Option DesignItem × Bool :=
  let projectId := item.id
  let hosting := env.hostingResult
  let hostedSource : Option HostedAsset :=
    if projectId ≠ "" ∧ item.sourceImage ≠ "" then
      (uploadImageToHosting env.hostEnv hosting item.sourceImage projectId Label.source).fst
    else none
  let renderedVal := item.renderedImage.getD ""
  let hostedRender : Option HostedAsset :=
    if projectId ≠ "" ∧ renderedVal ≠ "" then
      (uploadImageToHosting env.hostEnv hosting renderedVal projectId Label.rendered).fst
    else none
  let resolvedSource :=
    jsOr (match hostedSource with | some a => a.url | none => "")
      (if isHostedUrl item.sourceImage then item.sourceImage else "")
  let renderFallback : Option String :=
    if renderedVal ≠ "" ∧ isHostedUrl renderedVal then some renderedVal else none
  let resolvedRender : Option String :=
    match hostedRender with
    | some a => if a.url = "" then renderFallback else some a.url
    | none => renderFallback
  if resolvedSource = "" then (none, false)
  else
    let payload : DesignItem :=
      { item with
        sourceImage := resolvedSource
        renderedImage := resolvedRender
        sourcePath := none
        renderedPath := none
        publicPath := none }
    match normWorkerBase env.workerUrl with
    | none => (none, false)
    | some _ =>
      match env.saveExec payload with
      | .error _ => (none, true)
      | .ok resp => if !resp.ok then (none, true) else (resp.project, true)

/-! ### Direct storage upload helpers (src/unnamed/part_006, lines 416-572) -/

/-- Modelled from the spec: `STORAGE_PATHS.SOURCES` (missing
`lib/constants.ts`); the docs show uploads landing under
`roomify/sources/...`. -/
def STORAGE_PATHS_SOURCES : String := "roomify/sources"

/-- Modelled from the spec: `STORAGE_PATHS.RENDERS` (missing
`lib/constants.ts`). -/
def STORAGE_PATHS_RENDERS : String := "roomify/renders"

/-- Environment for `puter.fs.upload`: maps (target directory, filename,
MIME type) to the stored file's path. -/
structure UploadEnv where
  uploadPathResult : String → String → String → String

/-- MIME detection shared by `uploadImageFromBase64` and
`uploadRenderedImage`: the capture of the unanchored regex
`match(/data:([^;]+);/)` when the string starts with `data:` (keeping
the PNG default on a null match), else the filename extension, else
PNG. -/
def detectMimeFromBase64OrName (base64 filename : String) : String :=
  if strStarts base64 "data:" then
    match regexDataCaptureSemi base64.data with
    | some cap => ⟨cap⟩
    | none => "image/png"
  else if strEnds filename ".jpg" || strEnds filename ".jpeg" then "image/jpeg"
  else if strEnds filename ".png" then "image/png"
  else "image/png"

/-- Target directory under a storage root, honoring the optional (truthy)
subdirectory. -/
def targetDirUnder (root : String) (subdirectory : Option String) : String :=
  match subdirectory with
  | some s => if s ≠ "" then root ++ "/" ++ s else root
  | none => root

/-- Embedding of `uploadImageFromBase64` (src/unnamed/part_006, lines
416-485): throws when the user is not signed in, otherwise uploads under
`roomify/sources[/subdirectory]` and returns the stored path. -/
def uploadImageFromBase64 (env : UploadEnv) (signedIn : Bool)
    (base64 filename : String) (subdirectory : Option String) :
    Except String String :=
  if !signedIn then .error "User must be signed in to upload files"
  else
    let mimeType := detectMimeFromBase64OrName base64 filename
    let targetDir := targetDirUnder STORAGE_PATHS_SOURCES subdirectory
    .ok (env.uploadPathResult targetDir filename mimeType)

/-- Embedding of `uploadImageFromFile` (src/unnamed/part_006, lines
493-519): same authentication policy, no MIME detection. -/
def uploadImageFromFile (env : UploadEnv) (signedIn : Bool)
    (filename : String) (subdirectory : Option String) :
    Except String String :=
  if !signedIn then .error "User must be signed in to upload files"
  else
    let targetDir := targetDirUnder STORAGE_PATHS_SOURCES subdirectory
    .ok (env.uploadPathResult targetDir filename "")

/-- Embedding of `uploadRenderedImage` (src/unnamed/part_006, lines
528-572): like `uploadImageFromBase64` but under `roomify/renders`. -/
def uploadRenderedImage (env : UploadEnv) (signedIn : Bool)
    (base64 filename : String) (subdirectory : Option String) :
    Except String String :=
  if !signedIn then .error "User must be signed in to upload files"
  else
    let mimeType := detectMimeFromBase64OrName base64 filename
    let targetDir := targetDirUnder STORAGE_PATHS_RENDERS subdirectory
    .ok (env.uploadPathResult targetDir filename mimeType)

/-! ### Worker save endpoint (src/unnamed/part_006, lines 964-1006) -/

/-- A JSON value, as received by the worker endpoints. -/
inductive JVal
  | jnull
  | jbool (b : Bool)
  | jnum (n : Int)
  | jstr (s : String)
  | jarr (elems : List JVal)
  | jobj (fields : List (String × JVal))
deriving Repr

/-- `v?.k`: field lookup on an object, `undefined` on anything else. -/
def jGetField : JVal → String → Option JVal
  | .jobj fields, k => (fields.find? (fun p => p.fst == k)).map Prod.snd
  | _, _ => none

/-- `typeof v === 'object' && v` (arrays are objects; `null` is falsy). -/
def isObjectLike : JVal → Bool
  | .jobj _ => true
  | .jarr _ => true
  | _ => false

/-- Object spread update `{...fields, k: v}`. Key order is not observable
by any claim, so the overridden key is re-appended at the end. -/
def jSetField (fields : List (String × JVal)) (k : String) (v : JVal) :
    List (String × JVal) :=
  (fields.filter (fun p => p.fst != k)) ++ [(k, v)]

/-- Template-literal stringification for the key interpolation
`roomify_project_${project.id ?? userId}`. (Array/object stringification
never feeds a claim; the string and number cases are the live ones.) -/
def jToTemplateString : JVal → String
  | .jstr s => s
  | .jnum n => toString n
  | .jbool b => if b then "true" else "false"
  | .jnull => "null"
  | .jarr _ => ""
  | .jobj _ => "[object Object]"

/-- The request, as seen by the save handler: whether `user.puter` is
present, the parsed body (`none` models a JSON parse failure), and the
user id that `getUserId` resolves (`none` when `auth.getUser` fails). -/
structure SaveReq where
  authenticated : Bool
  body : Option JVal
  userId : Option String

/-- The observable outcome of the save handler: HTTP status, key-value
writes performed, and the success payload `{ saved: true, id, project }`. -/
structure SaveOutcome where
  status : Nat
  kvWrites : List (String × JVal)
  savedTrue : Bool
  respId : Option JVal := none
  respProject : Option JVal := none
deriving Repr

/-- A 4xx/5xx outcome: no write, no success payload. -/
def saveFail (status : Nat) : SaveOutcome :=
  { status := status, kvWrites := [], savedTrue := false }

/-- Embedding of `router.post('/api/projects/save')` (src/unnamed/part_006,
lines 964-1006). `now` is the server-side `new Date().toISOString()`. -/
def handleSave (now : String) (req : SaveReq) : SaveOutcome :=
  if !req.authenticated then saveFail 401
  else
    match req.body with
    | none => saveFail 400
    | some body =>
      match jGetField body "project" with
      | none => saveFail 400
      | some p =>
        if !isObjectLike p then saveFail 400
        else
          match jGetField p "sourceImage" with
          | some (JVal.jstr s) =>
            if s = "" then saveFail 400
            else
              match p with
              | JVal.jobj fields =>
                let payload := JVal.jobj (jSetField fields "updatedAt" (JVal.jstr now))
                match req.userId with
                | none => saveFail 401
                | some uid =>
                  let idPart :=
                    match jGetField p "id" with
                    | none => uid
                    | some JVal.jnull => uid
                    | some v => jToTemplateString v
                  { status := 200
                    kvWrites := [("roomify_project_" ++ idPart, payload)]
                    savedTrue := true
                    respId := jGetField p "id"
                    respProject := some payload }
              | _ => saveFail 400
          | _ => saveFail 400

/-! ### Visualizer zoom (src/app/routes/visualizer.$id.tsx) -/

/-- A zoom interaction on a pane: the ±0.2 zoom buttons (`handleZoom`) or
a ±0.1 wheel step (`handleWheel`; `wheelAway` is `deltaY > 0`). -/
inductive ZoomOp
  | btnZoomIn
  | btnZoomOut
  | wheelToward
  | wheelAway
deriving DecidableEq, Repr

/-- The clamp applied by every zoom update:
`Math.max(0.5, Math.min(3, newZoom))`. -/
def clampZoom (z : ℚ) : ℚ := max (1 / 2) (min 3 z)

/-- One zoom interaction, exactly as the handlers compute it. Both panes
(`zoom2D` and `zoom3D`) use this same update. -/
def applyZoomOp (z : ℚ) : ZoomOp → ℚ
  | .btnZoomIn => clampZoom (z + 2 / 10)
  | .btnZoomOut => clampZoom (z - 2 / 10)
  | .wheelToward => clampZoom (z + 1 / 10)
  | .wheelAway => clampZoom (z + -(1 / 10))

/-- The zoom state starts at `useState(1)`. -/
def initialZoom : ℚ := 1

/-- The pane zoom after a sequence of interactions from the initial state. -/
def runZoomOps (ops : List ZoomOp) : ℚ := ops.foldl applyZoomOp initialZoom

/-! ### Claim-support definitions -/

/-- Extension-based content-type inference (steps 3-4 of the claimed
resolution order): infer from the source URL's file extension, defaulting
to a PNG content type. -/
def extInferFromUrl (url : String) : String :=
  if strEnds url ".jpg" || strEnds url ".jpeg" then "image/jpeg"
  else if strEnds url ".png" then "image/png"
  else if strEnds url ".webp" then "image/webp"
  else "image/png"

/-- The content-type resolution order asserted by the spec, written from
its words: (1) the type declared in the data URL prefix when the
reference is a data URL, (2) the HTTP response content-type header when
the resource was fetched, (3) inference from the source URL's file
extension, (4) a PNG content type as the final default. -/
def mimeTypeClaimOrder (url : String) (responseContentType : Option String) :
    String :=
  if strStarts url "data:" then
    let m : String := ⟨(url.data.drop 5).takeWhile (fun c => c ≠ ';')⟩
    if m = "" then "image/png" else m
  else
    match responseContentType with
    | some ct => if ct ≠ "" then ct else extInferFromUrl url
    | none => extInferFromUrl url

/-- The content-type resolution order of the amended claim C6, written
from its words: for a data URL, the type of the first `data:<type>`
occurrence the unanchored regex finds in the reference (possibly a later
occurrence when the leading prefix declares no type), with PNG when no
type can be captured; for any other reference, inference from the file
extension, then a PNG default. The HTTP response content-type header
plays no part. -/
def mimeTypeAmendedOrder (url : String) : String :=
  if strStarts url "data:" then
    match regexDataCapture url.data with
    | some cap => ⟨cap⟩
    | none => "image/png"
  else extInferFromUrl url

/-- An uploader environment whose external effects all fail; enough for
witnesses that never reach them. -/
def demoHostEnv : HostEnv :=
  { fetchRemote := fun _ => none, toPngBlob := fun _ => none }

/-- A generation environment whose fetch reports a JPEG content type (the
data URL a `FileReader` would produce from a response whose content-type
header is `image/jpeg`) and whose backend accepts every request. -/
def mimeCounterEnv : GenEnv :=
  { fetchDataUrl := fun _ => .ok "data:image/jpeg;base64,AAAA"
    txt2img := fun _ => .ok { ident := 1 } }

/-- Whether a save body carries a project object with a non-empty string
`sourceImage` — the exact condition the save endpoint's validation
accepts. -/
def projectHasNonemptyStringSource (body : JVal) : Bool :=
  match jGetField body "project" with
  | some (JVal.jobj fields) =>
    match jGetField (JVal.jobj fields) "sourceImage" with
    | some (JVal.jstr s) => s ≠ ""
    | _ => false
  | _ => false

/-- An authenticated save request whose project carries `sourceImage`
as the *empty* string — a string-typed source the claim says must be
stored. -/
def emptySourceReq : SaveReq :=
  { authenticated := true
    body := some (JVal.jobj [("project", JVal.jobj [("sourceImage", JVal.jstr "")])])
    userId := some "user-1" }

/-- A storage-upload environment returning the canonical stored path. -/
def demoUploadEnv : UploadEnv :=
  { uploadPathResult := fun dir filename _ => dir ++ "/" ++ filename }

/-- Fields of a well-formed project body: a non-empty string source and an
id. -/
def validProjectFields : List (String × JVal) :=
  [("sourceImage", JVal.jstr "https://img.example/plan.png"), ("id", JVal.jstr "42")]

/-- An authenticated, well-formed save request built from
`validProjectFields`. -/
def validSaveReq : SaveReq :=
  { authenticated := true
    body := some (JVal.jobj [("project", JVal.jobj validProjectFields)])
    userId := some "user-1" }


/-! ## Theorems -/

/-- The empty string does not contain the hosting domain marker. -/
theorem isHostedUrl_empty : isHostedUrl "" = false := by decide

/-- Claim C2: for every input url already pointing at the hosting domain
(`isHostedUrl` holds), and for every hosting config, project id and
label, `uploadImageToHosting` returns the url unchanged and performs no
directory creation and no file write. -/
theorem uploadImageToHosting_hosted_idempotent (env : HostEnv)
    (cfg : HostingConfig) (url projectId : String) (label : Label)
    (h : isHostedUrl url = true) :
    uploadImageToHosting env (some cfg) url projectId label
      = (some { url := url }, []) := by
  have hne : ¬ (url = "") := by
    intro he
    rw [he] at h
    exact absurd h (by decide)
  unfold uploadImageToHosting
  simp [hne, h]

/-- Witness for C2 at a concrete hosted URL. -/
theorem uploadImageToHosting_hosted_idempotent_witness :
    isHostedUrl "https://roomify-abc.puter.site/projects/1/source.png" = true ∧
    uploadImageToHosting demoHostEnv (some { subdomain := "roomify-abc" })
        "https://roomify-abc.puter.site/projects/1/source.png" "1" Label.source
      = (some { url := "https://roomify-abc.puter.site/projects/1/source.png" }, []) :=
  ⟨by decide,
   uploadImageToHosting_hosted_idempotent demoHostEnv { subdomain := "roomify-abc" }
     "https://roomify-abc.puter.site/projects/1/source.png" "1" Label.source (by decide)⟩

/-- A string starting with the eight characters of the scheme is never
empty. -/
theorem str_app_ne_empty (s : String) (a b c : String) (ha : a.length = 8) :
    ¬ (((a ++ s) ++ b) ++ c = "") := by
  intro h
  have hl := congrArg String.length h
  rw [String.length_append, String.length_append, String.length_append, ha] at hl
  rw [show ("" : String).length = 0 from rfl] at hl
  omega

/-- Claim C5: uploading the data URL `data:image/png;base64,iVBORw0KG`
with project id `42` and label `source` (any hosting config, blob
resolution succeeds by direct data-URL decoding) creates the directory
`roomify-hosting/projects/42`, writes the file
`roomify-hosting/projects/42/source.png`, and returns a URL ending in
`/projects/42/source.png`. -/
theorem uploadImageToHosting_scenario_42 (env : HostEnv) (cfg : HostingConfig) :
    uploadImageToHosting env (some cfg) "data:image/png;base64,iVBORw0KG" "42" Label.source
      = (some { url := ("https://" ++ cfg.subdomain ++ ".puter.site") ++ "/projects/42/source.png" },
         [FsEff.mkdirE "roomify-hosting/projects/42",
          FsEff.writeE "roomify-hosting/projects/42/source.png"]) := by
  have hne := str_app_ne_empty cfg.subdomain "https://" ".puter.site/" "projects/42/source.png" rfl
  show (if (("https://" ++ cfg.subdomain ++ ".puter.site/") ++ "projects/42/source.png") = ""
        then ((none : Option HostedAsset),
              [FsEff.mkdirE "roomify-hosting/projects/42",
               FsEff.writeE "roomify-hosting/projects/42/source.png"])
        else (some { url := ("https://" ++ cfg.subdomain ++ ".puter.site/") ++ "projects/42/source.png" },
              [FsEff.mkdirE "roomify-hosting/projects/42",
               FsEff.writeE "roomify-hosting/projects/42/source.png"])) = _
  rw [if_neg hne]
  have hassoc : (("https://" ++ cfg.subdomain ++ ".puter.site/") ++ "projects/42/source.png")
      = (("https://" ++ cfg.subdomain ++ ".puter.site") ++ "/projects/42/source.png") := by
    rw [String.append_assoc ("https://" ++ cfg.subdomain) ".puter.site/" "projects/42/source.png",
        String.append_assoc ("https://" ++ cfg.subdomain) ".puter.site" "/projects/42/source.png"]
    rfl
  rw [hassoc]

/-- The clamp keeps any value inside the closed interval. -/
theorem clampZoom_bounds (x : ℚ) : 1 / 2 ≤ clampZoom x ∧ clampZoom x ≤ 3 := by
  constructor
  · exact le_max_left _ _
  · apply max_le
    · norm_num
    · exact min_le_left _ _

/-- Claim C10: for every sequence of zoom operations (button steps of 0.2
and wheel steps of 0.1) starting from the initial zoom of 1, the pane
zoom stays within the closed interval from 0.5 to 3. Both panes use the
same update (`applyZoomOp`), so the invariant covers the 2D and the 3D
pane alike. -/
theorem zoom_stays_in_bounds (ops : List ZoomOp) :
    1 / 2 ≤ runZoomOps ops ∧ runZoomOps ops ≤ 3 := by
  have gen : ∀ (l : List ZoomOp) (z : ℚ), 1 / 2 ≤ z → z ≤ 3 →
      1 / 2 ≤ l.foldl applyZoomOp z ∧ l.foldl applyZoomOp z ≤ 3 := by
    intro l
    induction l with
    | nil => intro z h1 h2; exact ⟨h1, h2⟩
    | cons a t ih =>
      intro z h1 h2
      have hb : 1 / 2 ≤ applyZoomOp z a ∧ applyZoomOp z a ≤ 3 := by
        cases a <;> exact clampZoom_bounds _
      exact ih (applyZoomOp z a) hb.1 hb.2
  exact gen ops 1 (by norm_num) (by norm_num)

/-- Claim C1: when the hosted upload of the source image fails or returns
null and the original source reference is not already a hosted URL,
`createProject` returns null and never invokes the worker save endpoint
(the `Bool` component of the result records whether the endpoint was
called). -/
theorem createProject_unresolvable_source (env : ProjEnv) (item : DesignItem)
    (hup : (uploadImageToHosting env.hostEnv env.hostingResult item.sourceImage item.id Label.source).fst = none)
    (hnh : isHostedUrl item.sourceImage = false) :
    createProject env item = (none, false) := by
  unfold createProject
  by_cases hc : item.id ≠ "" ∧ item.sourceImage ≠ ""
  · simp [hc, hup, hnh, jsOr]
  · simp [hc, hnh, jsOr]

/-- Witness for C1: absent hosting config makes the upload return null,
and the data-URL source is not hosted, so nothing is persisted. -/
theorem createProject_unresolvable_source_witness :
    ((uploadImageToHosting demoHostEnv none "data:image/png;base64,AAA" "1" Label.source).fst = none) ∧
    (isHostedUrl "data:image/png;base64,AAA" = false) ∧
    createProject
        { hostEnv := demoHostEnv, hostingResult := none,
          workerUrl := some "https://w.example", saveExec := fun _ => .error "down" }
        { id := "1", sourceImage := "data:image/png;base64,AAA" }
      = (none, false) :=
  ⟨rfl, by decide,
   createProject_unresolvable_source
     { hostEnv := demoHostEnv, hostingResult := none,
       workerUrl := some "https://w.example", saveExec := fun _ => .error "down" }
     { id := "1", sourceImage := "data:image/png;base64,AAA" } rfl (by decide)⟩

/-- Claim C7: if `getOrCreateHostingConfig` succeeds, calling it again on
the resulting state (with any fresh slug, no intervening failure) returns
a config with the same subdomain, and the second call registers no new
subdomain (`createE` never appears in its effect trace). -/
theorem getOrCreateHostingConfig_stable (signedIn : Bool) (slug1 slug2 : String)
    (st : HostState) (cfg : HostingConfig)
    (h1 : (getOrCreateHostingConfig signedIn slug1 st).fst = some cfg) :
    (getOrCreateHostingConfig signedIn slug2
        (getOrCreateHostingConfig signedIn slug1 st).snd.fst).fst = some cfg ∧
    ∀ s, HostingEff.createE s ∉
      (getOrCreateHostingConfig signedIn slug2
        (getOrCreateHostingConfig signedIn slug1 st).snd.fst).snd.snd := by
  cases signedIn with
  | false => simp [getOrCreateHostingConfig] at h1
  | true =>
    cases hkv : st.kv with
    | some config =>
      by_cases hmem : config.subdomain ∈ st.subdomains
      · have hr : getOrCreateHostingConfig true slug1 st
            = (some config, st, [HostingEff.mkdirRoot, HostingEff.updateE config.subdomain]) := by
          simp [getOrCreateHostingConfig, hkv, hmem]
        have hcfg : config = cfg := by
          rw [hr] at h1
          exact Option.some.inj h1
        subst hcfg
        rw [hr]
        simp [getOrCreateHostingConfig, hkv, hmem]
      · have hr1 : getOrCreateHostingConfig true slug1 st = createHostingFresh slug1 st := by
          simp [getOrCreateHostingConfig, hkv, hmem]
        rw [hr1] at h1 ⊢
        by_cases hs1 : slug1 ∈ st.subdomains
        · simp [createHostingFresh, hs1] at h1
        · have hcfg : cfg = { subdomain := slug1 } := by
            simp [createHostingFresh, hs1] at h1
            exact h1.symm
          subst hcfg
          simp [createHostingFresh, hs1, getOrCreateHostingConfig]
    | none =>
      have hr1 : getOrCreateHostingConfig true slug1 st = createHostingFresh slug1 st := by
        simp [getOrCreateHostingConfig, hkv]
      rw [hr1] at h1 ⊢
      by_cases hs1 : slug1 ∈ st.subdomains
      · simp [createHostingFresh, hs1] at h1
      · have hcfg : cfg = { subdomain := slug1 } := by
          simp [createHostingFresh, hs1] at h1
          exact h1.symm
        subst hcfg
        simp [createHostingFresh, hs1, getOrCreateHostingConfig]

/-- Witness for C7 starting from an empty account state. -/
theorem getOrCreateHostingConfig_stable_witness :
    ((getOrCreateHostingConfig true "roomify-a" { kv := none, subdomains := [] }).fst
        = some { subdomain := "roomify-a" }) ∧
    ((getOrCreateHostingConfig true "roomify-b"
        (getOrCreateHostingConfig true "roomify-a" { kv := none, subdomains := [] }).snd.fst).fst
        = some { subdomain := "roomify-a" }) :=
  ⟨by decide,
   (getOrCreateHostingConfig_stable true "roomify-a" "roomify-b"
      { kv := none, subdomains := [] } { subdomain := "roomify-a" } (by decide)).1⟩

/-- Claim C9, counterexample: `uploadImageFromBase64` is an exported
helper other than the 3D generation client, yet on an unauthenticated
session it throws (`User must be signed in to upload files`) instead of
returning null or an empty result, refuting the claim that only
`generate3DView` throws. -/
theorem uploadImageFromBase64_throws_unauthenticated :
    uploadImageFromBase64 demoUploadEnv false "data:image/png;base64,AAA" "plan.png" none
      = .error "User must be signed in to upload files" := rfl

/-- Claim C9, amended: on an unauthenticated session the hosting-config
manager and the project-store operations return null or empty rather than
throwing (and `uploadImageToHosting` returns null when hosting is
absent), while the three direct storage upload helpers
(`uploadImageFromBase64`, `uploadImageFromFile`, `uploadRenderedImage`)
throw - so the 3D generation client is not the only throwing export. -/
theorem error_propagation_policy :
    (∀ slug st, getOrCreateHostingConfig false slug st = (none, st, [])) ∧
    (∀ env url projectId label,
        uploadImageToHosting env none url projectId label = (none, [])) ∧
    (∀ w e, getProjects false w e = []) ∧
    (∀ id w e, getProject false id w e = none) ∧
    (∀ p w e, updateProject false p w e = none) ∧
    (∀ env b f sub, uploadImageFromBase64 env false b f sub
        = .error "User must be signed in to upload files") ∧
    (∀ env f sub, uploadImageFromFile env false f sub
        = .error "User must be signed in to upload files") ∧
    (∀ env b f sub, uploadRenderedImage env false b f sub
        = .error "User must be signed in to upload files") :=
  ⟨fun _ _ => rfl, fun _ _ _ _ => rfl, fun _ _ => rfl, fun _ _ _ => rfl,
   fun _ _ _ => rfl, fun _ _ _ _ => rfl, fun _ _ _ => rfl, fun _ _ _ _ => rfl⟩

/-- Claim C8, counterexample: an authenticated request whose project
carries `sourceImage` as the empty string - a string-typed field the
claim says must be stored - is rejected with HTTP 400 and no key-value
write, because the endpoint tests JavaScript truthiness before the type. -/
theorem handleSave_empty_string_source_rejected :
    (handleSave "2026-10-12T00:00:00.000Z" emptySourceReq).status = 400 ∧
    (handleSave "2026-10-12T00:00:00.000Z" emptySourceReq).kvWrites = [] ∧
    (handleSave "2026-10-12T00:00:00.000Z" emptySourceReq).savedTrue = false :=
  ⟨rfl, rfl, rfl⟩

/-- Claim C8, amended: for every authenticated save request, a missing
body, or a body whose project lacks a *non-empty* string `sourceImage`
(the empty body `\x7b\x7d` included), yields HTTP 400 with no key-value
write; and every project object carrying a non-empty string
`sourceImage` (with a resolvable user id) is stored under
`roomify_project_` followed by its id (or the user id) with a stamped
`updatedAt`, answering `saved: true` with the id and stored record. -/
theorem handleSave_validation (now : String) (req : SaveReq)
    (hauth : req.authenticated = true) :
    (req.body = none → handleSave now req = saveFail 400) ∧
    (∀ body, req.body = some body → projectHasNonemptyStringSource body = false →
        handleSave now req = saveFail 400) ∧
    (∀ body fields s uid, req.body = some body →
        jGetField body "project" = some (JVal.jobj fields) →
        jGetField (JVal.jobj fields) "sourceImage" = some (JVal.jstr s) →
        s ≠ "" → req.userId = some uid →
        handleSave now req =
          { status := 200
            kvWrites := [("roomify_project_" ++
                (match jGetField (JVal.jobj fields) "id" with
                 | none => uid
                 | some JVal.jnull => uid
                 | some v => jToTemplateString v),
              JVal.jobj (jSetField fields "updatedAt" (JVal.jstr now)))]
            savedTrue := true
            respId := jGetField (JVal.jobj fields) "id"
            respProject := some (JVal.jobj (jSetField fields "updatedAt" (JVal.jstr now))) }) := by
  refine ⟨?_, ?_, ?_⟩
  · intro hb
    simp [handleSave, hauth, hb]
  · intro body hb hno
    unfold projectHasNonemptyStringSource at hno
    simp only [handleSave, hauth, hb]
    cases hp : jGetField body "project" with
    | none => simp
    | some p =>
      rw [hp] at hno
      cases p with
      | jobj fields =>
        dsimp only at hno
        cases hs : jGetField (JVal.jobj fields) "sourceImage" with
        | none => simp [hs, isObjectLike]
        | some sv =>
          rw [hs] at hno
          cases sv with
          | jstr s =>
            have hse : s = "" := by
              by_cases h : s = ""
              · exact h
              · simp [h] at hno
            subst hse
            simp [hs, isObjectLike]
          | jnull => simp [hs, isObjectLike]
          | jbool b => simp [hs, isObjectLike]
          | jnum n => simp [hs, isObjectLike]
          | jarr es => simp [hs, isObjectLike]
          | jobj fs => simp [hs, isObjectLike]
      | jarr es => simp [isObjectLike, jGetField]
      | jnull => simp [isObjectLike]
      | jbool b => simp [isObjectLike]
      | jnum n => simp [isObjectLike]
      | jstr s => simp [isObjectLike]
  · intro body fields s uid hb hp hs hne huid
    simp only [handleSave, hauth, hb, hp, hs, huid, isObjectLike]
    simp [hne]

/-- Witness for the amended C8 at a concrete well-formed request. -/
theorem handleSave_validation_witness :
    validSaveReq.authenticated = true ∧
    handleSave "2026-01-01T00:00:00.000Z" validSaveReq
      = { status := 200
          kvWrites := [("roomify_project_42",
            JVal.jobj [("sourceImage", JVal.jstr "https://img.example/plan.png"),
                       ("id", JVal.jstr "42"),
                       ("updatedAt", JVal.jstr "2026-01-01T00:00:00.000Z")])]
          savedTrue := true
          respId := some (JVal.jstr "42")
          respProject := some (JVal.jobj
            [("sourceImage", JVal.jstr "https://img.example/plan.png"),
             ("id", JVal.jstr "42"),
             ("updatedAt", JVal.jstr "2026-01-01T00:00:00.000Z")]) } :=
  ⟨rfl,
   (handleSave_validation "2026-01-01T00:00:00.000Z" validSaveReq rfl).2.2
     (JVal.jobj [("project", JVal.jobj validProjectFields)])
     validProjectFields "https://img.example/plan.png" "user-1"
     rfl rfl rfl (by decide) rfl⟩

/-- Claim C3: `tryModelsFrom` is the configuration-fallback loop of
`generate3DView`. For every configuration sequence split as
`front ++ [lastCfg]`, if the backend fails on each of the first
`front.length` built requests and succeeds on the last, the loop returns
that last image and issues exactly `front.length + 1` backend calls - no
configuration after the first success is tried. -/
theorem tryModels_stops_at_first_success
    (txt2img : AiOptions → Except String ImageH)
    (mkOpts : Nat → ModelConfig → AiOptions) (total : Nat)
    (front : List ModelConfig) (lastCfg : ModelConfig) (img : ImageH)
    (i : Nat) (lastErr : Option String)
    (hfail : ∀ k, (hk : k < front.length) →
        ∃ e, txt2img (mkOpts (i + k) (front.get ⟨k, hk⟩)) = .error e)
    (hsucc : txt2img (mkOpts (i + front.length) lastCfg) = .ok img) :
    (tryModelsFrom txt2img mkOpts total (front ++ [lastCfg]) i lastErr).fst = .ok img ∧
    (tryModelsFrom txt2img mkOpts total (front ++ [lastCfg]) i lastErr).snd.length
      = front.length + 1 := by
  induction front generalizing i lastErr with
  | nil =>
    rw [show i + List.length [] = i by simp] at hsucc
    simp [tryModelsFrom, hsucc]
  | cons c cs ih =>
    obtain ⟨e, he⟩ := hfail 0 (Nat.succ_pos _)
    have he2 : txt2img (mkOpts i c) = .error e := by simpa using he
    have hrec := ih (i + 1) (some e)
        (fun k hk => by
          obtain ⟨e3, he3⟩ := hfail (k + 1) (Nat.succ_lt_succ hk)
          refine ⟨e3, ?_⟩
          rw [show i + 1 + k = i + (k + 1) by omega]
          simpa using he3)
        (by
          rw [show i + 1 + cs.length = i + (c :: cs).length by simp; omega]
          exact hsucc)
    have key : tryModelsFrom txt2img mkOpts total ((c :: cs) ++ [lastCfg]) i lastErr
        = ((tryModelsFrom txt2img mkOpts total (cs ++ [lastCfg]) (i + 1) (some e)).fst,
           mkOpts i c :: (tryModelsFrom txt2img mkOpts total (cs ++ [lastCfg]) (i + 1) (some e)).snd) := by
      simp [tryModelsFrom, he2]
    rw [key]
    exact ⟨hrec.1, by simp [hrec.2]⟩

/-- Witness for C3: one failing configuration followed by one succeeding
configuration; the loop returns the second result after exactly two
calls. -/
theorem tryModels_stops_at_first_success_witness :
    ((fun (o : AiOptions) => if o.model = "bad" then (.error "boom" : Except String ImageH)
               else .ok { ident := 7 })
        ((fun (_ : Nat) (cfg : ModelConfig) =>
            ({ provider := cfg.provider, model := cfg.model, prompt := "p",
               testMode := false, inputImage := none, ratioOpt := none } : AiOptions))
          (0 + 1) { provider := "y", model := "good", useInputImage := false, ratioOpt := none })
      = .ok { ident := 7 }) ∧
    (tryModelsFrom
        (fun (o : AiOptions) => if o.model = "bad" then (.error "boom" : Except String ImageH)
                  else .ok { ident := 7 })
        (fun (_ : Nat) (cfg : ModelConfig) =>
          { provider := cfg.provider, model := cfg.model, prompt := "p",
            testMode := false, inputImage := none, ratioOpt := none })
        2
        ([{ provider := "x", model := "bad", useInputImage := false, ratioOpt := none }]
          ++ [{ provider := "y", model := "good", useInputImage := false, ratioOpt := none }])
        0 none).fst = .ok { ident := 7 } ∧
    (tryModelsFrom
        (fun (o : AiOptions) => if o.model = "bad" then (.error "boom" : Except String ImageH)
                  else .ok { ident := 7 })
        (fun (_ : Nat) (cfg : ModelConfig) =>
          { provider := cfg.provider, model := cfg.model, prompt := "p",
            testMode := false, inputImage := none, ratioOpt := none })
        2
        ([{ provider := "x", model := "bad", useInputImage := false, ratioOpt := none }]
          ++ [{ provider := "y", model := "good", useInputImage := false, ratioOpt := none }])
        0 none).snd.length
      = List.length [({ provider := "x", model := "bad", useInputImage := false,
                        ratioOpt := none } : ModelConfig)] + 1 := by
  refine ⟨rfl, ?_⟩
  exact tryModels_stops_at_first_success _ _ 2
    [{ provider := "x", model := "bad", useInputImage := false, ratioOpt := none }]
    { provider := "y", model := "good", useInputImage := false, ratioOpt := none }
    { ident := 7 } 0 none
    (fun k hk => by
      cases k with
      | zero => exact ⟨"boom", rfl⟩
      | succ n =>
        simp only [List.length_singleton] at hk
        exact absurd hk (by omega))
    rfl

/-- Claim C4: when the backend fails for all three configurations of the
fixed list, `generate3DView` rejects with the single aggregated error
naming the number of models attempted (3) and the message of the last
underlying error. -/
theorem generate3DView_all_fail (env : GenEnv) (url b : String)
    (options : GenOptions) (e0 e1 e2 : String)
    (hd : strStarts url "data:" = true)
    (hb : extractBase64FromDataUrl url = .ok b)
    (h0 : env.txt2img (genAiOption b (getMimeTypeFromUrl url) (normPrompt options)
            (normTestMode options) options.model 0
            { provider := "gemini", model := "gemini-2.5-flash-image-preview",
              useInputImage := true, ratioOpt := some (1024, 1024) }) = .error e0)
    (h1 : env.txt2img (genAiOption b (getMimeTypeFromUrl url) (normPrompt options)
            (normTestMode options) options.model 1
            { provider := "gemini", model := "gemini-3-pro-image-preview",
              useInputImage := true, ratioOpt := some (1024, 1024) }) = .error e1)
    (h2 : env.txt2img (genAiOption b (getMimeTypeFromUrl url) (normPrompt options)
            (normTestMode options) options.model 2
            { provider := "xai", model := "grok-2-image",
              useInputImage := false, ratioOpt := none }) = .error e2) :
    (generate3DView env url options).fst
      = .error ("Failed to generate 3D view (tried 3 model(s)): " ++ e2) := by
  simp only [generate3DView, fetchAsDataUrl, hd, if_true, hb]
  simp only [THREE_D_MODEL_CONFIGS, IMAGE_3D_RENDER_DIMENSION, List.length_cons,
    List.length_nil, tryModelsFrom, h0, h1, h2]
  rfl

/-- Witness for C4: a backend that always fails yields the aggregated
three-model error carrying the last failure message. -/
theorem generate3DView_all_fail_witness :
    (strStarts "data:image/png;base64,AAA" "data:" = true) ∧
    (generate3DView
        { fetchDataUrl := fun _ => .error "no fetch",
          txt2img := fun _ => .error "always down" }
        "data:image/png;base64,AAA" {}).fst
      = .error ("Failed to generate 3D view (tried 3 model(s)): " ++ "always down") :=
  ⟨by decide,
   generate3DView_all_fail
     { fetchDataUrl := fun _ => .error "no fetch",
       txt2img := fun _ => .error "always down" }
     "data:image/png;base64,AAA" "AAA" {} "always down" "always down" "always down"
     (by decide) rfl rfl rfl rfl⟩

/-- Claim C6, counterexample: for the fetched resource
`https://example.com/plan.png` whose response content-type header is
`image/jpeg` (the fetch yields a JPEG data URL), the claimed resolution
order gives `image/jpeg`, but the code resolves the MIME type from the
original URL only (`getMimeTypeFromUrl`), yielding `image/png`, and the
generation pipeline indeed sends `image/png` to the backend: the HTTP
header step of the claimed order does not exist in the code. -/
theorem mime_header_step_refuted :
    mimeTypeClaimOrder "https://example.com/plan.png" (some "image/jpeg") = "image/jpeg" ∧
    getMimeTypeFromUrl "https://example.com/plan.png" = "image/png" ∧
    ((generate3DView mimeCounterEnv "https://example.com/plan.png" {}).snd.map
        (fun o => o.inputImage)).head? = some (some ("AAAA", "image/png")) := by
  refine ⟨by decide, by decide, ?_⟩
  rfl

/-- Every request the fallback loop issues is one built by its
option-builder. -/
theorem tryModels_trace_shape (txt2img : AiOptions → Except String ImageH)
    (mkOpts : Nat → ModelConfig → AiOptions) (total : Nat) :
    ∀ (cfgs : List ModelConfig) (i : Nat) (le : Option String) (o : AiOptions),
      o ∈ (tryModelsFrom txt2img mkOpts total cfgs i le).snd →
      ∃ j cfg, o = mkOpts j cfg := by
  intro cfgs
  induction cfgs with
  | nil => intro i le o h; simp [tryModelsFrom] at h
  | cons c cs ih =>
    intro i le o h
    simp only [tryModelsFrom] at h
    cases he : txt2img (mkOpts i c) with
    | ok img =>
      rw [he] at h
      simp at h
      exact ⟨i, c, h⟩
    | error e =>
      rw [he] at h
      simp at h
      cases h with
      | inl h => exact ⟨i, c, h⟩
      | inr h => exact ih (i + 1) (some e) o h

/-- Claim C6, amended: the content type used by the generation pipeline
is resolved from the original URL only, as (1) for a data URL, the type
of the first `data:<type>` occurrence the unanchored regex captures in
the reference (possibly a later occurrence when the leading prefix
declares no type), with a PNG default when nothing is captured, (2)
inference from the source URL file extension, (3) a PNG default - the
HTTP response content-type header is never consulted. Formally, the code
equals that header-free order, and every backend request carrying an
input image uses exactly that MIME type. -/
theorem mimeType_resolution_amended (url : String) :
    getMimeTypeFromUrl url = mimeTypeAmendedOrder url ∧
    ∀ (env : GenEnv) (options : GenOptions) (o : AiOptions) (p : String × String),
      o ∈ (generate3DView env url options).snd → o.inputImage = some p →
      p.2 = mimeTypeAmendedOrder url := by
  have hcode : getMimeTypeFromUrl url = mimeTypeAmendedOrder url := rfl
  refine ⟨hcode, ?_⟩
  intro env options o p hmem hinput
  unfold generate3DView at hmem
  cases hf : fetchAsDataUrl env url with
  | error e => rw [hf] at hmem; simp at hmem
  | ok dataUrl =>
    rw [hf] at hmem
    dsimp only at hmem
    cases hx : extractBase64FromDataUrl dataUrl with
    | error e => rw [hx] at hmem; simp at hmem
    | ok b =>
      rw [hx] at hmem
      dsimp only at hmem
      obtain ⟨j, cfg, rfl⟩ := tryModels_trace_shape env.txt2img _ _ _ _ _ _ hmem
      unfold genAiOption at hinput
      by_cases hu : cfg.useInputImage = true
      · simp only [hu, if_true] at hinput
        have hp2 : p = (b, getMimeTypeFromUrl url) := by
          simpa using hinput.symm
        rw [hp2, ← hcode]
      · simp only [hu] at hinput
        simp at hinput

/-- Witness for the amended C6: the first request of the counterexample
run carries exactly the MIME type of the header-free resolution order. -/
theorem mimeType_resolution_amended_witness :
    (({ provider := "gemini", model := "gemini-2.5-flash-image-preview",
        prompt := ROOMIFY_RENDER_PROMPT, testMode := false,
        inputImage := some ("AAAA", "image/png"),
        ratioOpt := some (1024, 1024) } : AiOptions)
       ∈ (generate3DView mimeCounterEnv "https://example.com/plan.png" {}).snd) ∧
    ("AAAA", "image/png").2 = mimeTypeAmendedOrder "https://example.com/plan.png" :=
  ⟨by decide,
   (mimeType_resolution_amended "https://example.com/plan.png").2
     mimeCounterEnv {}
     { provider := "gemini", model := "gemini-2.5-flash-image-preview",
       prompt := ROOMIFY_RENDER_PROMPT, testMode := false,
       inputImage := some ("AAAA", "image/png"),
       ratioOpt := some (1024, 1024) }
     ("AAAA", "image/png") (by decide) rfl⟩

end Roomify
